import Mathlib

/-!
Verification development for the DalgoLite execution engine
(`backend/main.py`, `backend/qualitative_data_service.py`,
`backend/database.py`): a shallow embedding of the table model, the join
evaluator, the transformation executor, the text-analytics evaluator and
the pipeline orchestration helpers, with theorems checking the
natural-language specification against this embedding.
-/

/-- A single cell of a tabular dataset.  `null` models a pandas NaN/None
value; strings and exact rationals cover the values the engine moves
(floating point is modelled by `ℚ`). -/
inductive Cell where
  | null
  | str (s : String)
  | num (q : ℚ)
deriving DecidableEq, Repr

/-- An in-memory table: ordered column names and rows of cells (a shallow
embedding of a pandas DataFrame as the engine uses it). -/
structure Table where
  cols : List String
  rows : List (List Cell)
deriving DecidableEq, Repr

/-- A Python-dict-style association of string keys to tables.  It models
both the `exec` globals namespace of the transformation executor and the
warehouse (SQLite table name to stored table). -/
abbrev Env : Type := List (String × Table)

/-- Lookup of a key, first binding wins (Python dict read). -/
def Env.get : Env → String → Option Table
  | [], _ => none
  | (y, v) :: rest, x => if y = x then some v else Env.get rest x

/-- Update-or-insert of a key (Python dict write; `to_sql` with
`if_exists='replace'` on the warehouse side). -/
def Env.set : Env → String → Table → Env
  | [], x, v => [(x, v)]
  | (y, w) :: rest, x, v =>
    if y = x then (x, v) :: rest else (y, w) :: Env.set rest x v

/-- Index of a column name inside a table's column list. -/
def Table.colIdx (t : Table) (c : String) : Option Nat :=
  t.cols.indexOf? c

/-- Value of column `c` in a row of table `t` (NaN when absent, as pandas
yields for a misaligned row). -/
def rowCell (t : Table) (row : List Cell) (c : String) : Cell :=
  match t.colIdx c with
  | some i => row.getD i Cell.null
  | none => Cell.null

/-! ## Output table name derivation

`backend/main.py` (`execute_transformation_step`,
`execute_qualitative_data_operation`) and
`backend/database.py` (`JoinRepository.create_join`) derive the physical
output table name of a node.  Python's `re.sub(r'[^\w]', '_', s)`
replaces every single non-word character by one underscore; `\w` is
modelled as ASCII alphanumerics plus underscore, which covers every name
these claims touch. -/

/-- Python `\w` membership for the characters relevant here. -/
def isWordChar (c : Char) : Bool :=
  c.isAlphanum || c == '_'

/-- Character-wise map over a string through its character list (the
library `String.map` walks byte positions, which the kernel cannot
reduce; this version evaluates). -/
def mapChars (f : Char → Char) (s : String) : String :=
  ⟨s.data.map f⟩

/-- Python `s.lower()` for the ASCII names handled here. -/
def pyLower (s : String) : String :=
  mapChars Char.toLower s

/-- Python `s.strip()`: leading and trailing whitespace removed. -/
def pyStrip (s : String) : String :=
  ⟨((s.data.dropWhile Char.isWhitespace).reverse.dropWhile
      Char.isWhitespace).reverse⟩

/-- Python `re.sub(r'[^\w]', '_', s)`: each non-word character becomes one
underscore (character-by-character, runs are not collapsed). -/
def pySubNonWordToUnderscore (s : String) : String :=
  mapChars (fun c => if isWordChar c then c else '_') s

/-- Python `s.replace(a, b)` for single characters. -/
def pyReplaceChar (s : String) (a b : Char) : String :=
  mapChars (fun c => if c == a then b else c) s

/-- Output table name of an AI transformation step
(`execute_transformation_step`, main.py): the sanitized lower-cased
custom name when one is set (`none` models a null/blank
`output_table_name`), otherwise
`transform_step_{step_id}_{cleaned step name}`. -/
def transform_step_table_name (outputTableName : Option String)
    (stepId : Nat) (stepName : String) : String :=
  match outputTableName with
  | some custom => pySubNonWordToUnderscore (pyLower custom)
  | none =>
    pySubNonWordToUnderscore
      ("transform_step_" ++ toString stepId ++ "_" ++
        pyReplaceChar (pyReplaceChar (pyLower stepName) ' ' '_') '-' '_')

/-- Output table name of a qualitative-data operation
(`execute_qualitative_data_operation`, main.py): the sanitized
lower-cased custom name when set, otherwise
`qualitative_{analysis_type}_{operation id}_{int(time.time())}` — note
the current Unix time `now` in the default. -/
def qualitative_output_table_name (analysisType : String) (opId : Nat)
    (customName : Option String) (now : Nat) : String :=
  match customName with
  | some custom => pySubNonWordToUnderscore (pyLower custom)
  | none =>
    "qualitative_" ++ analysisType ++ "_" ++ toString opId ++ "_" ++ toString now

/-- Output table name fixed at join creation
(`JoinRepository.create_join`, database.py): the sanitized lower-cased
custom name when set (`none` models a null/blank name), otherwise
`join_{project_id}_{creation timestamp}`. -/
def create_join_output_table_name (projectId : Nat)
    (customName : Option String) (creationTs : Nat) : String :=
  match customName with
  | some custom => pySubNonWordToUnderscore (pyLower custom)
  | none => "join_" ++ toString projectId ++ "_" ++ toString creationTs

/-! ## Join evaluator (`execute_join`, main.py) -/

/-- One `{left, right}` join key pair of a join operation. -/
structure JoinKeyPair where
  left : String
  right : String
deriving DecidableEq, Repr

/-- Error message raised when a left join key is absent: it names the
column, the left side, and the comma-separated full list of available
columns of the left table. -/
def leftKeyNotFoundMsg (col : String) (available : List String) : String :=
  "Column '" ++ col ++ "' not found in left table. Available columns: " ++
    String.intercalate ", " available

/-- Error message raised when a right join key is absent. -/
def rightKeyNotFoundMsg (col : String) (available : List String) : String :=
  "Column '" ++ col ++ "' not found in right table. Available columns: " ++
    String.intercalate ", " available

/-- Validation of one key pair, exactly in source order: the left column
is checked first, then the right column. -/
def joinKeyError (leftCols rightCols : List String) (k : JoinKeyPair) :
    Option String :=
  if k.left ∈ leftCols then
    if k.right ∈ rightCols then none
    else some (rightKeyNotFoundMsg k.right rightCols)
  else some (leftKeyNotFoundMsg k.left leftCols)

/-- The `how_mapping` dict of `execute_join`. -/
def how_mapping : List (String × String) :=
  [("inner", "inner"), ("left", "left"), ("right", "right"), ("full", "outer")]

/-- Python `how_mapping.get(join_type, 'inner')`. -/
def mergeHow (joinType : String) : String :=
  (how_mapping.lookup joinType).getD "inner"

/-- Conjunctive key match of `pd.merge`: a left row pairs with a right
row only if every key pair agrees. -/
def keysMatch (lt rt : Table) (keys : List JoinKeyPair)
    (lrow rrow : List Cell) : Bool :=
  keys.all (fun k => rowCell lt lrow k.left == rowCell rt rrow k.right)

/-- A column that appears as a same-named key pair is emitted once by
`pd.merge` (no right-side copy, no suffix). -/
def isMergedKeyCol (keys : List JoinKeyPair) (c : String) : Bool :=
  keys.any (fun k => k.left == c && k.right == c)

/-- Right-table columns kept in the merge output. -/
def rightKeptCols (rt : Table) (keys : List JoinKeyPair) : List String :=
  rt.cols.filter (fun c => !isMergedKeyCol keys c)

/-- Collision suffixing of `pd.merge(suffixes=('_left', '_right'))`: a
column shared with the other table and not a merged key gets the fixed
marker. -/
def suffixIfShared (otherCols : List String) (keys : List JoinKeyPair)
    (suffix : String) (c : String) : String :=
  if c ∈ otherCols ∧ !isMergedKeyCol keys c then c ++ suffix else c

/-- Right-row cells restricted to the kept right columns. -/
def rightRowKept (rt : Table) (keys : List JoinKeyPair) (rrow : List Cell) :
    List Cell :=
  (rightKeptCols rt keys).map (fun c => rowCell rt rrow c)

/-- Matched row combinations (inner part of every merge kind). -/
def innerRows (lt rt : Table) (keys : List JoinKeyPair) : List (List Cell) :=
  lt.rows.flatMap (fun lrow =>
    (rt.rows.filter (fun rrow => keysMatch lt rt keys lrow rrow)).map
      (fun rrow => lrow ++ rightRowKept rt keys rrow))

/-- Left rows with no key match, padded with nulls on the right side. -/
def leftUnmatchedRows (lt rt : Table) (keys : List JoinKeyPair) :
    List (List Cell) :=
  (lt.rows.filter (fun lrow =>
      rt.rows.all (fun rrow => !keysMatch lt rt keys lrow rrow))).map
    (fun lrow => lrow ++ (rightKeptCols rt keys).map (fun _ => Cell.null))

/-- Right rows with no key match, padded with nulls on the left side
(merged key columns carry the right value, as pandas coalesces them). -/
def rightUnmatchedRows (lt rt : Table) (keys : List JoinKeyPair) :
    List (List Cell) :=
  (rt.rows.filter (fun rrow =>
      lt.rows.all (fun lrow => !keysMatch lt rt keys lrow rrow))).map
    (fun rrow =>
      (lt.cols.map (fun c =>
        if isMergedKeyCol keys c then rowCell rt rrow c else Cell.null)) ++
        rightRowKept rt keys rrow)

/-- Relational merge of `pd.merge(left, right, left_on, right_on, how,
suffixes=('_left', '_right'))` over the four `how` values the engine
maps to. -/
def mergeTables (lt rt : Table) (keys : List JoinKeyPair) (how : String) :
    Table :=
  let outCols :=
    lt.cols.map (suffixIfShared rt.cols keys "_left") ++
      (rightKeptCols rt keys).map (suffixIfShared lt.cols keys "_right")
  let base := innerRows lt rt keys
  let outRows :=
    if how == "left" then base ++ leftUnmatchedRows lt rt keys
    else if how == "right" then base ++ rightUnmatchedRows lt rt keys
    else if how == "outer" then
      base ++ leftUnmatchedRows lt rt keys ++ rightUnmatchedRows lt rt keys
    else base
  { cols := outCols, rows := outRows }

/-- The join execution body of `execute_join` (main.py): a missing or
empty input table fails first (the endpoint treats a `None` load result
and an empty frame identically, so a failed load is modelled by an empty
table); then every key pair is validated against the column lists; only
then is the merge performed, with unrecognized join kinds mapped to
`inner`. -/
def execute_join (leftTableType rightTableType : String) (lt rt : Table)
    (keys : List JoinKeyPair) (joinType : String) : Except String Table :=
  if lt.rows.isEmpty then
    .error ("Could not load left table (" ++ leftTableType ++
      "). Please ensure it exists and has data.")
  else if rt.rows.isEmpty then
    .error ("Could not load right table (" ++ rightTableType ++
      "). Please ensure it exists and has data.")
  else
    match keys.findSome? (joinKeyError lt.cols rt.cols) with
    | some msg => .error msg
    | none => .ok (mergeTables lt rt keys (mergeHow joinType))

/-- Helper: a `findSome?` hit comes from some member of the list. -/
theorem mem_of_findSome?_eq_some {α β : Type} {f : α → Option β} :
    ∀ {l : List α} {b : β}, l.findSome? f = some b → ∃ a ∈ l, f a = some b := by
  intro l
  induction l with
  | nil => intro b h; simp [List.findSome?] at h
  | cons x xs ih =>
    intro b h
    rw [List.findSome?_cons] at h
    cases hx : f x with
    | some v =>
      rw [hx] at h
      exact ⟨x, List.mem_cons_self x xs, hx.trans h⟩
    | none =>
      rw [hx] at h
      obtain ⟨a, ha, hfa⟩ := ih h
      exact ⟨a, List.mem_cons_of_mem x ha, hfa⟩

/-- Helper: `findSome?` cannot miss a member on which `f` fires. -/
theorem findSome?_ne_none_of_mem {α β : Type} {f : α → Option β}
    {l : List α} {a : α} (ha : a ∈ l) (hfa : f a ≠ none) :
    l.findSome? f ≠ none := by
  induction l with
  | nil => cases ha
  | cons x xs ih =>
    rw [List.findSome?_cons]
    cases hx : f x with
    | some v => simp
    | none =>
      rcases List.mem_cons.mp ha with h | h
      · subst h; exact absurd hx hfa
      · exact ih h

/-- C6: for every join request, each left and right key is validated
against its table's columns before any merge; a missing key makes the
join fail with the message that names the missing column, the side it
was missing on, and the complete available-column list of that table. -/
theorem join_missing_key_is_reported
    (leftTableType rightTableType : String) (lt rt : Table)
    (keys : List JoinKeyPair) (joinType : String)
    (hl : lt.rows ≠ []) (hr : rt.rows ≠ [])
    (hmiss : ∃ k ∈ keys, k.left ∉ lt.cols ∨ k.right ∉ rt.cols) :
    ∃ k ∈ keys, ∃ msg,
      execute_join leftTableType rightTableType lt rt keys joinType =
        .error msg ∧
      ((k.left ∉ lt.cols ∧ msg = leftKeyNotFoundMsg k.left lt.cols) ∨
        (k.right ∉ rt.cols ∧ msg = rightKeyNotFoundMsg k.right rt.cols)) := by
  obtain ⟨k0, hk0, hbad⟩ := hmiss
  have hfire : joinKeyError lt.cols rt.cols k0 ≠ none := by
    unfold joinKeyError
    rcases hbad with h | h
    · rw [if_neg h]; simp
    · by_cases hL : k0.left ∈ lt.cols
      · rw [if_pos hL, if_neg h]; simp
      · rw [if_neg hL]; simp
  have hne := findSome?_ne_none_of_mem hk0 hfire
  cases hfs : keys.findSome? (joinKeyError lt.cols rt.cols) with
  | none => exact absurd hfs hne
  | some msg =>
    obtain ⟨k, hk, hkerr⟩ := mem_of_findSome?_eq_some hfs
    refine ⟨k, hk, msg, ?_, ?_⟩
    · unfold execute_join
      rw [if_neg (by simpa [List.isEmpty_iff] using hl),
        if_neg (by simpa [List.isEmpty_iff] using hr), hfs]
    · unfold joinKeyError at hkerr
      by_cases hL : k.left ∈ lt.cols
      · rw [if_pos hL] at hkerr
        by_cases hR : k.right ∈ rt.cols
        · rw [if_pos hR] at hkerr; cases hkerr
        · rw [if_neg hR] at hkerr
          exact Or.inr ⟨hR, (Option.some.injEq _ _ ▸ hkerr).symm⟩
      · rw [if_neg hL] at hkerr
        exact Or.inl ⟨hL, (Option.some.injEq _ _ ▸ hkerr).symm⟩

/-- Left table of the C6 witness scenario. -/
def witnessLeftTable : Table :=
  { cols := ["id", "amount"], rows := [[Cell.str "1", Cell.str "10"]] }

/-- Right table of the C6 witness scenario. -/
def witnessRightTable : Table :=
  { cols := ["id", "total"], rows := [[Cell.str "1", Cell.str "100"]] }

/-- Witness for C6, the concrete misspelling scenario of the spec: a key
`amout` against a table whose columns are `id, amount`. -/
theorem join_missing_key_is_reported_witness :
    ∃ k ∈ [JoinKeyPair.mk "amout" "id"], ∃ msg,
      execute_join "sheet" "sheet" witnessLeftTable witnessRightTable
        [JoinKeyPair.mk "amout" "id"] "inner" = .error msg ∧
      ((k.left ∉ witnessLeftTable.cols ∧
          msg = leftKeyNotFoundMsg k.left witnessLeftTable.cols) ∨
        (k.right ∉ witnessRightTable.cols ∧
          msg = rightKeyNotFoundMsg k.right witnessRightTable.cols)) :=
  join_missing_key_is_reported "sheet" "sheet"
    witnessLeftTable witnessRightTable
    [JoinKeyPair.mk "amout" "id"] "inner"
    (by decide) (by decide)
    ⟨JoinKeyPair.mk "amout" "id", by decide, Or.inl (by decide)⟩

/-- C9: a join whose kind is none of inner, left, right, full does not
fail on the kind: `how_mapping.get(join_type, 'inner')` silently maps it
to an inner merge, so execution behaves exactly as the inner join, and
succeeds whenever the key validation passes. -/
theorem join_unknown_kind_defaults_to_inner
    (leftTableType rightTableType : String) (lt rt : Table)
    (keys : List JoinKeyPair) (joinType : String)
    (hjt : joinType ∉ ["inner", "left", "right", "full"]) :
    execute_join leftTableType rightTableType lt rt keys joinType =
      execute_join leftTableType rightTableType lt rt keys "inner" ∧
    (lt.rows ≠ [] → rt.rows ≠ [] →
      keys.findSome? (joinKeyError lt.cols rt.cols) = none →
      execute_join leftTableType rightTableType lt rt keys joinType =
        .ok (mergeTables lt rt keys "inner")) := by
  simp only [List.mem_cons, List.not_mem_nil, or_false, not_or] at hjt
  obtain ⟨h1, h2, h3, h4⟩ := hjt
  have hb1 : (joinType == "inner") = false := beq_eq_false_iff_ne.mpr h1
  have hb2 : (joinType == "left") = false := beq_eq_false_iff_ne.mpr h2
  have hb3 : (joinType == "right") = false := beq_eq_false_iff_ne.mpr h3
  have hb4 : (joinType == "full") = false := beq_eq_false_iff_ne.mpr h4
  have hhow : mergeHow joinType = "inner" := by
    unfold mergeHow how_mapping
    simp [List.lookup, hb1, hb2, hb3, hb4]
  constructor
  · unfold execute_join
    rw [hhow]
    rfl
  · intro hl hr hv
    unfold execute_join
    rw [if_neg (by simpa [List.isEmpty_iff] using hl),
      if_neg (by simpa [List.isEmpty_iff] using hr), hv, hhow]

/-- Witness for C9 at the unrecognized kind `cross` on concrete tables
with a valid key. -/
theorem join_unknown_kind_defaults_to_inner_witness :
    execute_join "sheet" "sheet"
        { cols := ["id"], rows := [[Cell.str "1"]] }
        { cols := ["id"], rows := [[Cell.str "1"]] }
        [JoinKeyPair.mk "id" "id"] "cross" =
      execute_join "sheet" "sheet"
        { cols := ["id"], rows := [[Cell.str "1"]] }
        { cols := ["id"], rows := [[Cell.str "1"]] }
        [JoinKeyPair.mk "id" "id"] "inner" ∧
    (({ cols := ["id"], rows := [[Cell.str "1"]] } : Table).rows ≠ [] →
      ({ cols := ["id"], rows := [[Cell.str "1"]] } : Table).rows ≠ [] →
      [JoinKeyPair.mk "id" "id"].findSome?
          (joinKeyError ({ cols := ["id"], rows := [[Cell.str "1"]] } : Table).cols
            ({ cols := ["id"], rows := [[Cell.str "1"]] } : Table).cols) = none →
      execute_join "sheet" "sheet"
          { cols := ["id"], rows := [[Cell.str "1"]] }
          { cols := ["id"], rows := [[Cell.str "1"]] }
          [JoinKeyPair.mk "id" "id"] "cross" =
        .ok (mergeTables { cols := ["id"], rows := [[Cell.str "1"]] }
          { cols := ["id"], rows := [[Cell.str "1"]] }
          [JoinKeyPair.mk "id" "id"] "inner")) :=
  join_unknown_kind_defaults_to_inner "sheet" "sheet"
    { cols := ["id"], rows := [[Cell.str "1"]] }
    { cols := ["id"], rows := [[Cell.str "1"]] }
    [JoinKeyPair.mk "id" "id"] "cross" (by decide)

/-! ## Transformation executor (`execute_transformation_step`, main.py)

The generated pandas code is run by `exec(step.generated_code,
exec_globals)` where `exec_globals` is `{'df': df, 'pd': ..., 'numpy':
..., **sheet_data}`; afterwards `exec_globals.get('df', df)` is read
back as the result.  A script is embedded as the sequence of its
top-level effects on that namespace: assignments of tables to names, or
an uncaught exception.  The module bindings `pd`/`numpy` are not tables
and are omitted from the namespace model. -/

/-- One effect of the executed script on the `exec` globals. -/
inductive Stmt where
  | assign (name : String) (rhs : Env → Table)
  | failure (msg : String)

/-- Whether a statement assigns the given binding. -/
def Stmt.assignsName : Stmt → String → Bool
  | .assign x _, n => x == n
  | .failure _, _ => false

/-- Sequential execution of the script against the globals namespace; an
exception aborts the remainder, as `exec` raising does. -/
def runCode : List Stmt → Env → Except String Env
  | [], env => .ok env
  | Stmt.assign x r :: rest, env => runCode rest (env.set x (r env))
  | Stmt.failure m :: _, _ => .error m

/-- The `exec_globals` namespace: `df` bound first, then every
`{kind}_{id}` upstream binding from `sheet_data`. -/
def exec_globals (df : Table) (sheetData : Env) : Env :=
  sheetData.foldl (fun e p => e.set p.1 p.2) [("df", df)]

/-- Run the generated code and read back only the `df` binding
(`exec_globals.get('df', df)`); an exception is wrapped exactly as the
source wraps it. -/
def run_transformation_code (code : List Stmt) (df : Table)
    (sheetData : Env) : Except String Table :=
  match runCode code (exec_globals df sheetData) with
  | .error m => .error ("Error executing generated transformation code: " ++ m)
  | .ok env => .ok ((env.get "df").getD df)

/-- Helper: writing one key leaves every other key unchanged. -/
theorem Env.get_set_ne (e : Env) (x n : String) (v : Table) (h : x ≠ n) :
    (e.set x v).get n = e.get n := by
  induction e with
  | nil => simp [Env.set, Env.get, h]
  | cons p rest ih =>
    obtain ⟨y, w⟩ := p
    by_cases hyx : y = x
    · subst hyx
      simp only [Env.set, if_pos rfl, Env.get, if_neg h]
    · simp only [Env.set, if_neg hyx, Env.get]
      by_cases hyn : y = n
      · simp [hyn]
      · simp [hyn, ih]

/-- Helper: writing a key makes it readable. -/
theorem Env.get_set_self (e : Env) (x : String) (v : Table) :
    (e.set x v).get x = some v := by
  induction e with
  | nil => simp [Env.set, Env.get]
  | cons p rest ih =>
    obtain ⟨y, w⟩ := p
    by_cases hyx : y = x
    · subst hyx; simp [Env.set, Env.get]
    · simp [Env.set, hyx, Env.get, ih]

/-- Helper: folding writes whose keys avoid `n` preserves `n`. -/
theorem foldl_set_get_ne (l : List (String × Table)) (n : String) :
    ∀ e : Env, (∀ p ∈ l, p.1 ≠ n) →
      (l.foldl (fun e p => e.set p.1 p.2) e).get n = e.get n := by
  induction l with
  | nil => intro e _; rfl
  | cons p rest ih =>
    intro e hl
    simp only [List.foldl_cons]
    rw [ih _ (fun q hq => hl q (List.mem_cons_of_mem p hq)),
      Env.get_set_ne e p.1 n p.2 (hl p (List.mem_cons_self p rest))]

/-- Helper: the initial globals bind `df` to the input table as long as
no upstream binding is itself named `df` (upstream keys have the shape
`{kind}_{id}`). -/
theorem exec_globals_get_df (df : Table) (sheetData : Env)
    (hkeys : ∀ p ∈ sheetData, p.1 ≠ "df") :
    (exec_globals df sheetData).get "df" = some df := by
  unfold exec_globals
  rw [foldl_set_get_ne sheetData "df" [("df", df)] hkeys]
  simp [Env.get]

/-- Helper: a script that never assigns `df` leaves the `df` binding of
the namespace untouched. -/
theorem runCode_preserves_df (code : List Stmt) :
    ∀ env env' : Env, (∀ s ∈ code, s.assignsName "df" = false) →
      runCode code env = .ok env' → env'.get "df" = env.get "df" := by
  induction code with
  | nil =>
    intro env env' _ h
    cases h
    rfl
  | cons s rest ih =>
    intro env env' hs h
    cases s with
    | assign x r =>
      have hx : (x == "df") = false := hs (.assign x r) (List.mem_cons_self _ _)
      rw [runCode] at h
      rw [ih _ _ (fun q hq => hs q (List.mem_cons_of_mem _ hq)) h,
        Env.get_set_ne env x "df" (r env) (by simpa using hx)]
    | failure m =>
      rw [runCode] at h
      cases h

/-- C8: a transformation whose code never reassigns the `df` binding is
the identity transform — the executor reads back only `df`, which still
holds the input table, so the result equals the input unchanged. -/
theorem transformation_without_df_reassignment_is_identity
    (code : List Stmt) (df : Table) (sheetData : Env)
    (hkeys : ∀ p ∈ sheetData, p.1 ≠ "df")
    (hcode : ∀ s ∈ code, s.assignsName "df" = false)
    (env : Env) (hrun : runCode code (exec_globals df sheetData) = .ok env) :
    run_transformation_code code df sheetData = .ok df := by
  have h1 : env.get "df" = some df := by
    rw [runCode_preserves_df code _ env hcode hrun,
      exec_globals_get_df df sheetData hkeys]
  unfold run_transformation_code
  rw [hrun]
  show Except.ok ((env.get "df").getD df) = Except.ok df
  rw [h1]
  rfl

/-- Input table of the C8 witness. -/
def witnessInputTable : Table :=
  { cols := ["a"], rows := [[Cell.num 5]] }

/-- Code of the C8 witness: assigns a fresh name, never `df`. -/
def witnessNonDfCode : List Stmt :=
  [Stmt.assign "result" (fun _ => { cols := ["b"], rows := [] })]

/-- Witness for C8 on a concrete table and a script assigning only a
binding other than `df`. -/
theorem transformation_without_df_reassignment_is_identity_witness :
    run_transformation_code witnessNonDfCode witnessInputTable [] =
      .ok witnessInputTable :=
  transformation_without_df_reassignment_is_identity
    witnessNonDfCode witnessInputTable []
    (by intro p hp; cases hp)
    (by
      intro s hs
      rw [witnessNonDfCode, List.mem_singleton] at hs
      subst hs
      rfl)
    _ rfl

/-- The hard-coded fallback frame of `execute_transformation_step`:
`pd.DataFrame({'col1': [1, 2, 3], 'col2': ['a', 'b', 'c']})`. -/
def placeholder_df : Table :=
  { cols := ["col1", "col2"],
    rows := [[Cell.num 1, Cell.str "a"], [Cell.num 2, Cell.str "b"],
      [Cell.num 3, Cell.str "c"]] }

/-- An AI transformation step as `execute_transformation_step` sees it.
The `upstreamData` field carries each `upstream_tables` reference under
its `{kind}_{id}` binding name together with the table
`load_table_data` resolves it to (`none` when the lookup fails);
`outputColumns` is the value stored before this run, which a failed run
leaves in place. -/
structure AITransformationStep where
  id : Nat
  stepName : String
  outputTableName : Option String
  generatedCode : List Stmt
  upstreamData : List (String × Option Table)
  outputColumns : List String

/-- Warehouse contents: materialized tables by physical name. -/
abbrev Warehouse : Type := Env

/-- Materialization primitive `store_in_warehouse` (main.py):
`df.to_sql(table_name, engine, if_exists='replace')`, a destructive
replace of any table under that name. -/
def store_in_warehouse (w : Warehouse) (tableName : String) (t : Table) :
    Warehouse :=
  w.set tableName t

/-- The helper `load_upstream_data` (main.py): keeps only upstream
references that resolve to a non-`None`, non-empty table. -/
def load_upstream_data (ups : List (String × Option Table)) : Env :=
  ups.filterMap (fun p =>
    match p.2 with
    | some t => if t.rows.isEmpty then none else some (p.1, t)
    | none => none)

/-- The `df` binding chosen by `execute_transformation_step`:
`list(sheet_data.values())[0]` when upstream data exists, else the
placeholder frame. -/
def step_input_df (sheetData : Env) : Table :=
  match sheetData with
  | [] => placeholder_df
  | (_, t) :: _ => t

/-- Record of a step after one run (status, error, recorded columns and
the output table name the run would write to). -/
structure StepRunRecord where
  status : String
  errorMessage : Option String
  outputColumns : List String
  outputTableName : String

/-- The execution body of `execute_transformation_step` (main.py): load
upstream data, bind `df`, run the generated code, then on success store
the result in the warehouse only if it is non-empty and flip status to
`completed` (recording the result's columns); on an execution error flip
status to `failed` with the message, leaving the warehouse untouched. -/
def execute_transformation_step (step : AITransformationStep)
    (w : Warehouse) : StepRunRecord × Warehouse :=
  let sheetData := load_upstream_data step.upstreamData
  let df := step_input_df sheetData
  let tableName :=
    transform_step_table_name step.outputTableName step.id step.stepName
  match run_transformation_code step.generatedCode df sheetData with
  | .error m =>
    ({ status := "failed", errorMessage := some m,
       outputColumns := step.outputColumns, outputTableName := tableName }, w)
  | .ok resultDf =>
    ({ status := "completed", errorMessage := none,
       outputColumns := resultDf.cols, outputTableName := tableName },
      if resultDf.rows.isEmpty then w
      else store_in_warehouse w tableName resultDf)

/-- A step whose code produces an empty frame: `df` is reassigned to a
table with column `a` and no rows. -/
def emptyResultStep : AITransformationStep :=
  { id := 7, stepName := "empty output", outputTableName := some "Empty Out",
    generatedCode :=
      [Stmt.assign "df" (fun _ => { cols := ["a"], rows := [] })],
    upstreamData := [("sheet_1", some { cols := ["a"], rows := [[Cell.str "1"]] })],
    outputColumns := [] }

/-- Counterexample to C2: running `emptyResultStep` on an empty warehouse
ends with status `completed`, yet no output table was materialized under
the step's output table name — `completed` does not imply the output
table exists in the warehouse. -/
theorem completed_without_materialized_table :
    (execute_transformation_step emptyResultStep []).1.status = "completed" ∧
    (execute_transformation_step emptyResultStep []).2.get
      (transform_step_table_name emptyResultStep.outputTableName
        emptyResultStep.id emptyResultStep.stepName) = none := by
  constructor <;> rfl

/-- Helper: status and materialization of one transformation-step run —
status is `completed` exactly when the code ran without error, the
recorded column list is the result's, and the output table is
(re)materialized only when the result is non-empty; a failed run leaves
the warehouse unchanged. -/
theorem execute_transformation_step_status
    (step : AITransformationStep) (w : Warehouse) :
    (∀ m, run_transformation_code step.generatedCode
        (step_input_df (load_upstream_data step.upstreamData))
        (load_upstream_data step.upstreamData) = .error m →
      (execute_transformation_step step w).1.status = "failed" ∧
      (execute_transformation_step step w).2 = w) ∧
    (∀ res, run_transformation_code step.generatedCode
        (step_input_df (load_upstream_data step.upstreamData))
        (load_upstream_data step.upstreamData) = .ok res →
      (execute_transformation_step step w).1.status = "completed" ∧
      (execute_transformation_step step w).1.outputColumns = res.cols ∧
      (res.rows = [] → (execute_transformation_step step w).2 = w) ∧
      (res.rows ≠ [] →
        (execute_transformation_step step w).2.get
          (transform_step_table_name step.outputTableName step.id
            step.stepName) = some res)) := by
  constructor
  · intro m hm
    simp only [execute_transformation_step, hm]
    exact ⟨trivial, trivial⟩
  · intro res hres
    simp only [execute_transformation_step, hres]
    refine ⟨trivial, trivial, ?_, ?_⟩
    · intro hnil
      simp [hnil]
    · intro hne
      rw [if_neg (by simpa [List.isEmpty_iff] using hne)]
      exact Env.get_set_self w _ res

/-- A step whose code produces a non-empty one-row frame. -/
def nonEmptyResultStep : AITransformationStep :=
  { id := 8, stepName := "one row", outputTableName := some "One Row",
    generatedCode :=
      [Stmt.assign "df" (fun _ => { cols := ["b"], rows := [[Cell.num 2]] })],
    upstreamData := [], outputColumns := [] }

/-- C10: when every upstream reference of a step resolves to no table or
an empty one, execution does not fail with a resolution error: the code
runs against the built-in placeholder frame (`col1 = [1,2,3]`,
`col2 = ['a','b','c']`) with no upstream bindings, and if the code runs
without error the step is marked completed with the result's columns. -/
theorem no_upstream_data_uses_placeholder
    (step : AITransformationStep) (w : Warehouse)
    (hups : load_upstream_data step.upstreamData = [])
    (res : Table)
    (hok : run_transformation_code step.generatedCode placeholder_df [] =
      .ok res) :
    (execute_transformation_step step w).1.status = "completed" ∧
    (execute_transformation_step step w).1.outputColumns = res.cols := by
  have h := (execute_transformation_step_status step w).2 res
    (by rw [hups]; exact hok)
  exact ⟨h.1, h.2.1⟩

/-- A step all of whose upstream references resolve to nothing or to an
empty table. -/
def unresolvedUpstreamStep : AITransformationStep :=
  { id := 9, stepName := "orphan", outputTableName := none,
    generatedCode := [],
    upstreamData :=
      [("sheet_1", none), ("join_2", some { cols := ["x"], rows := [] })],
    outputColumns := [] }

/-- Witness for C10: the orphan step (empty code, so the result is the
placeholder itself) completes with the placeholder's columns. -/
theorem no_upstream_data_uses_placeholder_witness :
    (execute_transformation_step unresolvedUpstreamStep []).1.status =
      "completed" ∧
    (execute_transformation_step unresolvedUpstreamStep []).1.outputColumns =
      placeholder_df.cols :=
  no_upstream_data_uses_placeholder unresolvedUpstreamStep []
    (by decide) placeholder_df rfl

/-! ## Text-analytics evaluator (`qualitative_data_service.py`)

`_perform_sentiment_analysis` slices the valid texts into batches of the
hard-coded `batch_size = 100`, sends each batch to the completion
service (`call_llm_json_list`, including its retry and JSON-extraction
logic, modelled as one oracle call per batch that either yields the
parsed JSON list or raises), extends one `sentiments` list with each
batch's items, and finally appends a label column and a confidence
column to the valid-rows frame.  -/

/-- One parsed item of the model's JSON array: a dict with optional
`label`/`confidence` entries, or any non-dict value. -/
inductive JsonItem where
  | dict (label : Option String) (confidence : Option ℚ)
  | other
deriving DecidableEq, Repr

/-- Python `x.get('label', '') if isinstance(x, dict) else ''`. -/
def itemLabel : JsonItem → String
  | .dict (some l) _ => l
  | .dict none _ => ""
  | .other => ""

/-- Python `x.get('confidence', 0.0) if isinstance(x, dict) else 0.0`. -/
def itemConfidence : JsonItem → ℚ
  | .dict _ (some c) => c
  | .dict _ none => 0
  | .other => 0

/-- The hard-coded `self.batch_size` of `QualitativeDataService`. -/
def sentimentBatchSize : Nat := 100

/-- Python slicing `[texts[i:i+batch_size] for i in range(0, len(texts),
batch_size)]`, written with a step-count fuel so it computes by
reduction; the fuel `l.length` always suffices since every step consumes
at least one element. -/
def chunkBatchesGo {α : Type} : Nat → List α → List (List α)
  | 0, _ => []
  | _, [] => []
  | fuel + 1, l =>
    l.take sentimentBatchSize :: chunkBatchesGo fuel (l.drop sentimentBatchSize)

/-- The batch list of `_perform_sentiment_analysis`. -/
def chunkBatches {α : Type} (l : List α) : List (List α) :=
  chunkBatchesGo l.length l

/-- The batch loop of `_perform_sentiment_analysis`: for each chunk call
the service and extend the accumulated list; an exception from any call
propagates and aborts the remainder of the loop. -/
def collectSentiments
    (oracle : List String → Except String (List JsonItem)) :
    List (List String) → List JsonItem → Except String (List JsonItem)
  | [], acc => .ok acc
  | c :: cs, acc =>
    match oracle c with
    | .error m => .error m
    | .ok s => collectSentiments oracle cs (acc ++ s)

/-- Python `(xs + [fill] * target)[:target]`, the alignment of the label
and confidence arrays to the frame length. -/
def padListTo {α : Type} (n : Nat) (fill : α) (l : List α) : List α :=
  (l ++ List.replicate n fill).take n

/-- Pandas column assignment `df[c] = values`: when the column already
exists it is overwritten in place (same position, same column count),
otherwise a new column is appended on the right. -/
def setColumn (df : Table) (c : String) (vals : List Cell) : Table :=
  match df.cols.indexOf? c with
  | some i =>
    { cols := df.cols,
      rows := (df.rows.zip vals).map (fun p => p.1.set i p.2) }
  | none =>
    { cols := df.cols ++ [c],
      rows := (df.rows.zip vals).map (fun p => p.1 ++ [p.2]) }

/-- The two column assignments `out_df['sentiment_label'] = labels` and
`out_df['sentiment_confidence'] = confidences` on the (valid-row)
frame, with the arrays padded or truncated to the frame length exactly
as the source does.  When the frame already carries one of these
columns (a prior sentiment output re-analyzed), that column is
overwritten in place rather than appended. -/
def addSentimentColumns (df : Table) (sentiments : List JsonItem) : Table :=
  let targetLen := df.rows.length
  let labels := padListTo targetLen "" (sentiments.map itemLabel)
  let confidences := padListTo targetLen 0 (sentiments.map itemConfidence)
  setColumn (setColumn df "sentiment_label" (labels.map Cell.str))
    "sentiment_confidence" (confidences.map Cell.num)

/-- Result dict of a successful analysis (`success`, `output_data`,
`total_records`, `batch_count`); the failure dict (`success = False`) is
the `Except.error` side of the caller. -/
structure QualAnalysisResult where
  outputData : Table
  totalRecords : Nat
  batchCount : Nat
deriving DecidableEq, Repr

/-- The body of `_perform_sentiment_analysis`: batch, call, extend, then
build the output frame; `total_records` is the count of analyzed texts
and `batch_count` the number of batches. -/
def perform_sentiment_analysis
    (oracle : List String → Except String (List JsonItem))
    (df : Table) (texts : List String) : Except String QualAnalysisResult :=
  match collectSentiments oracle (chunkBatches texts) [] with
  | .error m => .error m
  | .ok sentiments =>
    .ok { outputData := addSentimentColumns df sentiments,
          totalRecords := texts.length,
          batchCount := (chunkBatches texts).length }

/-- The valid-text mask of `analyze_qualitative_data`:
`df[c].notna() & (df[c].astype(str).str.strip() != '')`. -/
def cellIsValidText : Cell → Bool
  | .null => false
  | .str s => !(pyStrip s == "")
  | .num _ => true

/-- Python `astype(str)` on a cell that passed the mask. -/
def cellAsText : Cell → String
  | .null => "None"
  | .str s => s
  | .num q => toString q

/-- The sentiment path of `analyze_qualitative_data`
(qualitative_data_service.py): validate the column, drop null/blank
rows (keeping only `valid_df`), fail when nothing remains, then run
`_perform_sentiment_analysis` on the valid rows and their texts. -/
def analyze_qualitative_sentiment
    (oracle : List String → Except String (List JsonItem))
    (df : Table) (textColumn : String) : Except String QualAnalysisResult :=
  if textColumn ∈ df.cols then
    let validRows := df.rows.filter
      (fun r => cellIsValidText (rowCell df r textColumn))
    if validRows.isEmpty then
      .error ("No valid text data found in column '" ++ textColumn ++
        "'. All values are null or empty.")
    else
      perform_sentiment_analysis oracle { cols := df.cols, rows := validRows }
        (validRows.map (fun r => cellAsText (rowCell df r textColumn)))
  else .error ("Column '" ++ textColumn ++ "' not found in data")

/-- An oracle that answers full batches of 100 texts but fails on the
final short batch (the service raising `ValueError` after its JSON
extraction attempts). -/
def secondBatchFailingOracle : List String → Except String (List JsonItem) :=
  fun c =>
    if c.length == 100 then
      .ok (List.replicate 100 (JsonItem.dict (some "Positive") (some (9 / 10))))
    else
      .error "Model did not return valid JSON. Original error: Expecting value"

/-- Texts spanning two batches (101 entries, batch size 100). -/
def twoBatchTexts : List String := List.replicate 101 "t"

/-- Frame holding the 101 valid rows of the two-batch scenario. -/
def twoBatchDf : Table :=
  { cols := ["feedback"], rows := List.replicate 101 [Cell.str "t"] }

/-- Counterexample to C3: with 101 texts the first batch of 100 succeeds,
the second batch fails, and the whole sentiment analysis returns the
batch error — the first batch's per-row labels are discarded and no
failed-batch count is reported, instead of being appended as partial
output. -/
theorem sentiment_second_batch_failure_discards_partial_results :
    secondBatchFailingOracle ((chunkBatches twoBatchTexts).getD 0 []) =
      .ok (List.replicate 100 (JsonItem.dict (some "Positive") (some (9 / 10)))) ∧
    perform_sentiment_analysis secondBatchFailingOracle twoBatchDf
        twoBatchTexts =
      .error "Model did not return valid JSON. Original error: Expecting value" := by
  constructor <;> rfl

/-- Helper: if the oracle fails on any batch, the batch loop of
`_perform_sentiment_analysis` raises, whatever was already collected. -/
theorem collectSentiments_error_of_mem
    (oracle : List String → Except String (List JsonItem)) :
    ∀ (chunks : List (List String)) (acc : List JsonItem),
      (∃ c ∈ chunks, ∃ m, oracle c = .error m) →
      ∃ m', collectSentiments oracle chunks acc = .error m' := by
  intro chunks
  induction chunks with
  | nil =>
    intro acc h
    obtain ⟨c, hc, _⟩ := h
    cases hc
  | cons c cs ih =>
    intro acc h
    rw [collectSentiments]
    cases hc : oracle c with
    | error m => exact ⟨m, rfl⟩
    | ok s =>
      obtain ⟨c0, hc0, m0, hm0⟩ := h
      rcases List.mem_cons.mp hc0 with h0 | h0
      · subst h0
        rw [hc] at hm0
        cases hm0
      · exact ih (acc ++ s) ⟨c0, h0, m0, hm0⟩

/-- C3 as amended: when any batch of a multi-batch sentiment analysis
fails (after the per-batch retries), the entire analysis fails with that
batch-loop error — results of already-succeeded batches are discarded
and no batch-level failure count is reported. -/
theorem sentiment_any_batch_failure_aborts_analysis
    (oracle : List String → Except String (List JsonItem))
    (df : Table) (texts : List String)
    (h : ∃ c ∈ chunkBatches texts, ∃ m, oracle c = .error m) :
    ∃ m', perform_sentiment_analysis oracle df texts = .error m' := by
  obtain ⟨m', hm'⟩ :=
    collectSentiments_error_of_mem oracle (chunkBatches texts) [] h
  exact ⟨m', by unfold perform_sentiment_analysis; rw [hm']⟩

/-- Witness for the amended C3 at the concrete two-batch scenario. -/
theorem sentiment_any_batch_failure_aborts_analysis_witness :
    ∃ m', perform_sentiment_analysis secondBatchFailingOracle twoBatchDf
      twoBatchTexts = .error m' :=
  sentiment_any_batch_failure_aborts_analysis secondBatchFailingOracle
    twoBatchDf twoBatchTexts
    ⟨["t"], by decide,
      "Model did not return valid JSON. Original error: Expecting value", rfl⟩

/-- Helper: the padded arrays have exactly the frame length. -/
theorem padListTo_length {α : Type} (n : Nat) (fill : α) (l : List α) :
    (padListTo n fill l).length = n := by
  unfold padListTo
  rw [List.length_take, List.length_append, List.length_replicate]
  omega

/-- An oracle that always answers a single-item JSON array. -/
def singleItemOracle : List String → Except String (List JsonItem) :=
  fun _ => .ok [JsonItem.dict (some "Positive") (some (9 / 10))]

/-- A two-row frame whose second text is blank. -/
def blankRowDf : Table :=
  { cols := ["feedback"], rows := [[Cell.str "good"], [Cell.str " "]] }

/-- Counterexample to C7: on a two-row table with one blank text, the
sentiment output holds only one row — the output is not the original
table with all of its rows, and the result reports only the analyzed-row
count (`total_records`), never the excluded-row count. -/
theorem sentiment_output_drops_blank_rows :
    blankRowDf.rows.length = 2 ∧
    (analyze_qualitative_sentiment singleItemOracle blankRowDf
        "feedback").map (fun r => r.outputData.rows.length) = .ok 1 ∧
    (analyze_qualitative_sentiment singleItemOracle blankRowDf
        "feedback").map (fun r => r.totalRecords) = .ok 1 := by
  refine ⟨rfl, rfl, rfl⟩

/-- Helper: assigning a column that is not present appends it. -/
theorem setColumn_cols_of_not_mem (df : Table) (c : String)
    (vals : List Cell) (h : c ∉ df.cols) :
    (setColumn df c vals).cols = df.cols ++ [c] := by
  have hidx : df.cols.indexOf? c = none := by
    rw [List.indexOf?_eq_none_iff]
    intro x hx
    simp only [beq_iff_eq]
    intro hxc
    exact h (hxc ▸ hx)
  unfold setColumn
  rw [hidx]

/-- Helper: a column assignment keeps `min` of the row count and the
value count as row count (the two are equal in every use here). -/
theorem setColumn_rows_length (df : Table) (c : String) (vals : List Cell) :
    (setColumn df c vals).rows.length = min df.rows.length vals.length := by
  unfold setColumn
  cases hidx : df.cols.indexOf? c with
  | some i => simp [List.length_zip]
  | none => simp [List.length_zip]

/-- Helper: on a frame carrying neither sentiment column, the two
assignments append exactly those two columns. -/
theorem addSentimentColumns_cols_of_not_mem (df : Table)
    (sentiments : List JsonItem)
    (h1 : "sentiment_label" ∉ df.cols)
    (h2 : "sentiment_confidence" ∉ df.cols) :
    (addSentimentColumns df sentiments).cols =
      df.cols ++ ["sentiment_label", "sentiment_confidence"] := by
  simp only [addSentimentColumns]
  have e1 := setColumn_cols_of_not_mem df "sentiment_label"
    ((padListTo df.rows.length "" (sentiments.map itemLabel)).map Cell.str) h1
  have h2x : "sentiment_confidence" ∉
      (setColumn df "sentiment_label"
        ((padListTo df.rows.length "" (sentiments.map itemLabel)).map
          Cell.str)).cols := by
    rw [e1]
    intro hm
    rcases List.mem_append.mp hm with hm | hm
    · exact h2 hm
    · exact absurd (List.mem_singleton.mp hm) (by decide)
  rw [setColumn_cols_of_not_mem _ "sentiment_confidence" _ h2x, e1,
    List.append_assoc]
  rfl

/-- Helper: the two assignments never change the row count. -/
theorem addSentimentColumns_rows_length (df : Table)
    (sentiments : List JsonItem) :
    (addSentimentColumns df sentiments).rows.length = df.rows.length := by
  simp only [addSentimentColumns, setColumn_rows_length, List.length_map,
    padListTo_length, Nat.min_self]

/-- C7 as amended: a successful sentiment analysis returns the table
restricted to the rows whose text is non-null and non-blank, and
reports the retained-row count as `total_records` (the excluded rows
are dropped from the output and their count is not part of the
result); the two columns `sentiment_label` and `sentiment_confidence`
(values taken from the service response, padded or truncated to the
retained row count) are appended when the source table does not already
carry them, and overwritten in place when it does. -/
theorem analyze_sentiment_output_shape
    (oracle : List String → Except String (List JsonItem))
    (df : Table) (textColumn : String) (r : QualAnalysisResult)
    (h : analyze_qualitative_sentiment oracle df textColumn = .ok r) :
    (("sentiment_label" ∉ df.cols ∧ "sentiment_confidence" ∉ df.cols) →
      r.outputData.cols =
        df.cols ++ ["sentiment_label", "sentiment_confidence"]) ∧
    r.outputData.rows.length =
      (df.rows.filter
        (fun row => cellIsValidText (rowCell df row textColumn))).length ∧
    r.totalRecords =
      (df.rows.filter
        (fun row => cellIsValidText (rowCell df row textColumn))).length := by
  unfold analyze_qualitative_sentiment at h
  by_cases hcol : textColumn ∈ df.cols
  · rw [if_pos hcol] at h
    by_cases hval : (df.rows.filter
        (fun row => cellIsValidText (rowCell df row textColumn))).isEmpty = true
    · rw [if_pos hval] at h
      cases h
    · rw [if_neg hval] at h
      unfold perform_sentiment_analysis at h
      cases hcs : collectSentiments oracle
          (chunkBatches ((df.rows.filter
            (fun row => cellIsValidText (rowCell df row textColumn))).map
              (fun row => cellAsText (rowCell df row textColumn)))) [] with
      | error m =>
        rw [hcs] at h
        cases h
      | ok sentiments =>
        rw [hcs] at h
        simp only [Except.ok.injEq] at h
        subst h
        refine ⟨?_, ?_, ?_⟩
        · intro hnot
          exact addSentimentColumns_cols_of_not_mem _ sentiments hnot.1 hnot.2
        · exact addSentimentColumns_rows_length _ sentiments
        · simp [List.length_map]
  · rw [if_neg hcol] at h
    cases h

/-- Witness for the amended C7 at the blank-row scenario (whose source
table carries neither sentiment column). -/
theorem analyze_sentiment_output_shape_witness :
    (QualAnalysisResult.mk
        { cols := ["feedback", "sentiment_label", "sentiment_confidence"],
          rows := [[Cell.str "good", Cell.str "Positive", Cell.num (9 / 10)]] }
        1 1).outputData.cols =
      blankRowDf.cols ++ ["sentiment_label", "sentiment_confidence"] ∧
    (QualAnalysisResult.mk
        { cols := ["feedback", "sentiment_label", "sentiment_confidence"],
          rows := [[Cell.str "good", Cell.str "Positive", Cell.num (9 / 10)]] }
        1 1).outputData.rows.length =
      (blankRowDf.rows.filter
        (fun row => cellIsValidText (rowCell blankRowDf row "feedback"))).length ∧
    (QualAnalysisResult.mk
        { cols := ["feedback", "sentiment_label", "sentiment_confidence"],
          rows := [[Cell.str "good", Cell.str "Positive", Cell.num (9 / 10)]] }
        1 1).totalRecords =
      (blankRowDf.rows.filter
        (fun row => cellIsValidText (rowCell blankRowDf row "feedback"))).length := by
  have h := analyze_sentiment_output_shape singleItemOracle blankRowDf "feedback"
    (QualAnalysisResult.mk
      { cols := ["feedback", "sentiment_label", "sentiment_confidence"],
        rows := [[Cell.str "good", Cell.str "Positive", Cell.num (9 / 10)]] }
      1 1) rfl
  exact ⟨h.1 (by decide), h.2.1, h.2.2⟩

/-! ## Per-node persistence of join and text-analytics runs
(`execute_join` and `execute_qualitative_data_operation`, main.py)

Unlike a transformation step, these two endpoints write their result
frame with `result_df.to_sql(..., if_exists='replace')` unconditionally
— with no emptiness guard — before flipping status to `completed`. -/

/-- Record of a join operation's status fields after one execution of
the `execute_join` endpoint (`update_join_status`, database.py). -/
structure JoinRunRecord where
  status : String
  errorMessage : Option String
  outputColumns : List String

/-- The persistence wrapper of the `execute_join` endpoint (main.py): on
success the result frame is written unconditionally before the join
flips to `completed` with the result's columns; on any error the join
flips to `failed` (its previously recorded columns kept) and the
warehouse is untouched. -/
def execute_join_endpoint (leftTableType rightTableType : String)
    (lt rt : Table) (keys : List JoinKeyPair) (joinType : String)
    (outputTableName : String) (prevColumns : List String)
    (w : Warehouse) : JoinRunRecord × Warehouse :=
  match execute_join leftTableType rightTableType lt rt keys joinType with
  | .error m =>
    ({ status := "failed", errorMessage := some m,
       outputColumns := prevColumns }, w)
  | .ok resultDf =>
    ({ status := "completed", errorMessage := none,
       outputColumns := resultDf.cols },
      store_in_warehouse w outputTableName resultDf)

/-- Record of a qualitative operation's status fields after one
execution (`update_qualitative_status`, database.py). -/
structure QualRunRecord where
  status : String
  errorMessage : Option String
  outputColumns : List String

/-- The execution body of `execute_qualitative_data_operation` (main.py)
for a sentiment operation: a missing or empty source frame fails first
(a failed load and an empty frame are treated identically, so a failed
load is modelled by an empty table); otherwise the analysis runs and on
success the output frame is written unconditionally before status flips
to `completed` with the result's columns; any error flips status to
`failed` leaving the warehouse untouched. -/
def execute_qualitative_data_operation
    (oracle : List String → Except String (List JsonItem))
    (sourceDf : Table) (textColumn : String) (outputTableName : String)
    (prevColumns : List String) (w : Warehouse) :
    QualRunRecord × Warehouse :=
  if sourceDf.rows.isEmpty then
    ({ status := "failed",
       errorMessage := some "No data available for analysis",
       outputColumns := prevColumns }, w)
  else
    match analyze_qualitative_sentiment oracle sourceDf textColumn with
    | .error m =>
      ({ status := "failed", errorMessage := some m,
         outputColumns := prevColumns }, w)
    | .ok r =>
      ({ status := "completed", errorMessage := none,
         outputColumns := r.outputData.cols },
        store_in_warehouse w outputTableName r.outputData)

/-- C2 as amended: after any run completes — for a join or
text-analytics operation, a successful run always materializes its
output table under the run's output name before status flips to
`completed` (the replace write runs unconditionally, so for these two
kinds a run that produces no materialized table never leaves the node
`completed`), and the recorded column list is the materialized table's;
a transformation step's successful run likewise flips to `completed`
recording the result's columns, but materializes only a non-empty
result, so an empty result leaves it `completed` with no table written;
for all three kinds a failed run flips to `failed` and leaves the
warehouse — including any previously materialized, now possibly stale,
table — unchanged. -/
theorem node_completed_status_materialization
    (step : AITransformationStep) (w1 : Warehouse)
    (leftTableType rightTableType : String) (lt rt : Table)
    (keys : List JoinKeyPair) (joinType jName : String)
    (jPrev : List String) (w2 : Warehouse)
    (oracle : List String → Except String (List JsonItem))
    (sourceDf : Table) (textColumn qName : String)
    (qPrev : List String) (w3 : Warehouse) :
    (∀ res, run_transformation_code step.generatedCode
        (step_input_df (load_upstream_data step.upstreamData))
        (load_upstream_data step.upstreamData) = .ok res →
      (execute_transformation_step step w1).1.status = "completed" ∧
      (execute_transformation_step step w1).1.outputColumns = res.cols ∧
      (res.rows = [] → (execute_transformation_step step w1).2 = w1) ∧
      (res.rows ≠ [] → (execute_transformation_step step w1).2.get
        (transform_step_table_name step.outputTableName step.id
          step.stepName) = some res)) ∧
    (∀ m, run_transformation_code step.generatedCode
        (step_input_df (load_upstream_data step.upstreamData))
        (load_upstream_data step.upstreamData) = .error m →
      (execute_transformation_step step w1).1.status = "failed" ∧
      (execute_transformation_step step w1).2 = w1) ∧
    (∀ res, execute_join leftTableType rightTableType lt rt keys
        joinType = .ok res →
      (execute_join_endpoint leftTableType rightTableType lt rt keys
          joinType jName jPrev w2).1.status = "completed" ∧
      (execute_join_endpoint leftTableType rightTableType lt rt keys
          joinType jName jPrev w2).1.outputColumns = res.cols ∧
      (execute_join_endpoint leftTableType rightTableType lt rt keys
          joinType jName jPrev w2).2.get jName = some res) ∧
    (∀ m, execute_join leftTableType rightTableType lt rt keys
        joinType = .error m →
      (execute_join_endpoint leftTableType rightTableType lt rt keys
          joinType jName jPrev w2).1.status = "failed" ∧
      (execute_join_endpoint leftTableType rightTableType lt rt keys
          joinType jName jPrev w2).2 = w2) ∧
    (∀ r, sourceDf.rows ≠ [] →
      analyze_qualitative_sentiment oracle sourceDf textColumn = .ok r →
      (execute_qualitative_data_operation oracle sourceDf textColumn
          qName qPrev w3).1.status = "completed" ∧
      (execute_qualitative_data_operation oracle sourceDf textColumn
          qName qPrev w3).1.outputColumns = r.outputData.cols ∧
      (execute_qualitative_data_operation oracle sourceDf textColumn
          qName qPrev w3).2.get qName = some r.outputData) ∧
    (∀ m, sourceDf.rows ≠ [] →
      analyze_qualitative_sentiment oracle sourceDf textColumn =
        .error m →
      (execute_qualitative_data_operation oracle sourceDf textColumn
          qName qPrev w3).1.status = "failed" ∧
      (execute_qualitative_data_operation oracle sourceDf textColumn
          qName qPrev w3).2 = w3) ∧
    (sourceDf.rows = [] →
      (execute_qualitative_data_operation oracle sourceDf textColumn
          qName qPrev w3).1.status = "failed" ∧
      (execute_qualitative_data_operation oracle sourceDf textColumn
          qName qPrev w3).2 = w3) := by
  refine ⟨?_, ?_, ?_, ?_, ?_, ?_, ?_⟩
  · intro res hres
    exact (execute_transformation_step_status step w1).2 res hres
  · intro m hm
    exact (execute_transformation_step_status step w1).1 m hm
  · intro res hres
    simp only [execute_join_endpoint, hres]
    refine ⟨by first | rfl | trivial, by first | rfl | trivial, ?_⟩
    exact Env.get_set_self w2 jName res
  · intro m hm
    simp only [execute_join_endpoint, hm]
    exact ⟨by first | rfl | trivial, by first | rfl | trivial⟩
  · intro r hne hok
    simp only [execute_qualitative_data_operation]
    rw [if_neg (by simpa [List.isEmpty_iff] using hne)]
    simp only [hok]
    refine ⟨by first | rfl | trivial, by first | rfl | trivial, ?_⟩
    exact Env.get_set_self w3 qName r.outputData
  · intro m hne hm
    simp only [execute_qualitative_data_operation]
    rw [if_neg (by simpa [List.isEmpty_iff] using hne)]
    simp only [hm]
    exact ⟨by first | rfl | trivial, by first | rfl | trivial⟩
  · intro hz
    simp only [execute_qualitative_data_operation]
    rw [if_pos (by simp [hz])]
    exact ⟨rfl, rfl⟩

/-- Witness for the amended C2, one concrete run of each kind: the
non-empty transformation step completes with its table readable; a
one-row inner join completes with its (unconditionally written) result
readable; and a sentiment operation completes with its output frame
readable. -/
theorem node_completed_status_materialization_witness :
    (execute_transformation_step nonEmptyResultStep []).1.status =
      "completed" ∧
    (execute_transformation_step nonEmptyResultStep []).2.get
      (transform_step_table_name nonEmptyResultStep.outputTableName
        nonEmptyResultStep.id nonEmptyResultStep.stepName) =
      some { cols := ["b"], rows := [[Cell.num 2]] } ∧
    (execute_join_endpoint "sheet" "sheet"
        { cols := ["id"], rows := [[Cell.str "1"]] }
        { cols := ["id"], rows := [[Cell.str "1"]] }
        [JoinKeyPair.mk "id" "id"] "inner" "join_out" [] []).1.status =
      "completed" ∧
    (execute_join_endpoint "sheet" "sheet"
        { cols := ["id"], rows := [[Cell.str "1"]] }
        { cols := ["id"], rows := [[Cell.str "1"]] }
        [JoinKeyPair.mk "id" "id"] "inner" "join_out" [] []).2.get
      "join_out" = some { cols := ["id"], rows := [[Cell.str "1"]] } ∧
    (execute_qualitative_data_operation singleItemOracle blankRowDf
        "feedback" "qual_out" [] []).1.status = "completed" ∧
    (execute_qualitative_data_operation singleItemOracle blankRowDf
        "feedback" "qual_out" [] []).2.get "qual_out" =
      some { cols := ["feedback", "sentiment_label", "sentiment_confidence"],
             rows := [[Cell.str "good", Cell.str "Positive",
               Cell.num (9 / 10)]] } := by
  have h := node_completed_status_materialization nonEmptyResultStep []
    "sheet" "sheet" { cols := ["id"], rows := [[Cell.str "1"]] }
    { cols := ["id"], rows := [[Cell.str "1"]] } [JoinKeyPair.mk "id" "id"]
    "inner" "join_out" [] [] singleItemOracle blankRowDf "feedback"
    "qual_out" [] []
  obtain ⟨hT, _, hJ, _, hQ, _, _⟩ := h
  have hT2 := hT { cols := ["b"], rows := [[Cell.num 2]] } rfl
  have hJ2 := hJ { cols := ["id"], rows := [[Cell.str "1"]] } rfl
  have hQ2 := hQ (QualAnalysisResult.mk
    { cols := ["feedback", "sentiment_label", "sentiment_confidence"],
      rows := [[Cell.str "good", Cell.str "Positive", Cell.num (9 / 10)]] }
    1 1) (by decide) rfl
  exact ⟨hT2.1, hT2.2.2.2 (by decide), hJ2.1, hJ2.2.2, hQ2.1, hQ2.2.2⟩

/-- Helper: appending to a common prefix is cancellative on strings. -/
theorem string_append_left_cancel (p a b : String) (h : p ++ a = p ++ b) :
    a = b := by
  have hd : p.data ++ a.data = p.data ++ b.data := congrArg String.data h
  have hab : a.data = b.data := List.append_cancel_left hd
  cases a
  cases b
  exact congrArg String.mk hab

/-- Counterexample to C4: the default output table name of a
text-analytics operation embeds the execution's Unix time, so the same
node writes to different names at different seconds; and the sanitizer
maps each non-alphanumeric character to its own underscore instead of
collapsing a run to a single separator. -/
theorem table_name_not_config_deterministic :
    qualitative_output_table_name "sentiment" 1 none 1000 ≠
      qualitative_output_table_name "sentiment" 1 none 1001 ∧
    pySubNonWordToUnderscore (pyLower "a--b") = "a__b" := by
  constructor
  · decide
  · rfl

/-- C4 as amended: a custom output table name is sanitized into a name
depending only on the configuration (each non-word character becomes one
underscore, runs not collapsed), and transformation-step defaults depend
only on the step id and name; but the text-analytics and
join-creation defaults embed a current timestamp, so they are not a
function of the node's configuration alone. -/
theorem output_table_name_determinism
    (analysisType custom stepName : String) (opId stepId projectId : Nat) :
    (∀ t1 t2 : Nat,
      qualitative_output_table_name analysisType opId (some custom) t1 =
        qualitative_output_table_name analysisType opId (some custom) t2) ∧
    (∀ t1 t2 : Nat,
      create_join_output_table_name projectId (some custom) t1 =
        create_join_output_table_name projectId (some custom) t2) ∧
    (transform_step_table_name (some custom) stepId stepName =
      pySubNonWordToUnderscore (pyLower custom)) ∧
    (∃ t1 t2 : Nat,
      qualitative_output_table_name analysisType opId none t1 ≠
        qualitative_output_table_name analysisType opId none t2) ∧
    (∃ t1 t2 : Nat,
      create_join_output_table_name projectId none t1 ≠
        create_join_output_table_name projectId none t2) := by
  refine ⟨fun _ _ => rfl, fun _ _ => rfl, rfl, ⟨0, 1, ?_⟩, ⟨0, 1, ?_⟩⟩
  · intro h
    have h0 : toString (0 : Nat) = toString (1 : Nat) :=
      string_append_left_cancel _ _ _ h
    exact absurd h0 (by decide)
  · intro h
    have h0 : toString (0 : Nat) = toString (1 : Nat) :=
      string_append_left_cancel _ _ _ h
    exact absurd h0 (by decide)

/-! ## Source-sheet sync gate (`sync_project_source_sheets` and
`execute_transformation_pipeline`, main.py)

Each registered sheet's individual sync attempt either updates the sheet
(counted) or is skipped on any error; the run-level outcome depends only
on the per-sheet success flags, so the function is embedded over that
list.  `success_rate = synced_count / total_sheets if total_sheets > 0
else 0`, and the sync is successful when `success_rate >= 0.5`. -/

/-- Result of `sync_project_source_sheets`. -/
structure SyncResult where
  success : Bool
  syncedCount : Nat
  totalSheets : Nat
deriving DecidableEq, Repr

/-- The counting and thresholding of `sync_project_source_sheets`. -/
def sync_project_source_sheets (sheetSyncOk : List Bool) : SyncResult :=
  let syncedCount := (sheetSyncOk.filter (fun b => b)).length
  let totalSheets := sheetSyncOk.length
  let successRate : ℚ :=
    if totalSheets > 0 then (syncedCount : ℚ) / (totalSheets : ℚ) else 0
  { success := decide (successRate ≥ 1 / 2),
    syncedCount := syncedCount, totalSheets := totalSheets }

/-- Outcome of step 1 of `execute_transformation_pipeline`. -/
inductive PipelinePhase where
  | failedBeforeNodes
  | nodesExecuted
deriving DecidableEq, Repr

/-- The sync gate of `execute_transformation_pipeline`: when the sync
result is not successful the history entry and project are marked failed
and the function returns before any node execution; otherwise execution
proceeds to the nodes. -/
def execute_transformation_pipeline_gate (sheetSyncOk : List Bool) :
    PipelinePhase :=
  if (sync_project_source_sheets sheetSyncOk).success then
    PipelinePhase.nodesExecuted
  else PipelinePhase.failedBeforeNodes

/-- Counterexample to C5: for a project with zero source tables, "at
least half of the source tables re-synced" holds vacuously
(`2 * 0 ≥ 0`), yet the run is marked failed with no node execution — the
code sets the success rate to `0` when `total_sheets` is zero. -/
theorem pipeline_zero_source_tables_fails :
    2 * (sync_project_source_sheets []).syncedCount ≥
      (sync_project_source_sheets []).totalSheets ∧
    execute_transformation_pipeline_gate [] =
      PipelinePhase.failedBeforeNodes := by
  constructor
  · exact Nat.le_refl 0
  · unfold execute_transformation_pipeline_gate sync_project_source_sheets
    rw [if_neg]
    rw [Bool.not_eq_true]
    simp only [List.filter_nil, List.length_nil, gt_iff_lt, lt_self_iff_false,
      if_false]
    rw [decide_eq_false]
    norm_num

/-- C5 as amended: the pipeline proceeds to node execution exactly when
the project has at least one source table and at least half of them
re-synced; a project with zero source tables always fails before node
execution. -/
theorem pipeline_gate_iff (sheetSyncOk : List Bool) :
    execute_transformation_pipeline_gate sheetSyncOk =
      PipelinePhase.nodesExecuted ↔
    (0 < sheetSyncOk.length ∧
      sheetSyncOk.length ≤ 2 * (sheetSyncOk.filter (fun b => b)).length) := by
  have hmain : (sync_project_source_sheets sheetSyncOk).success = true ↔
      (0 < sheetSyncOk.length ∧
        sheetSyncOk.length ≤ 2 * (sheetSyncOk.filter (fun b => b)).length) := by
    unfold sync_project_source_sheets
    simp only [decide_eq_true_eq]
    split
    · rename_i htot
      have htot2 : 0 < sheetSyncOk.length := htot
      have htq : (0 : ℚ) < (sheetSyncOk.length : ℚ) := by exact_mod_cast htot2
      rw [ge_iff_le, div_le_div_iff₀ (by norm_num) htq, one_mul,
        mul_comm (((sheetSyncOk.filter (fun b => b)).length : ℚ)) 2]
      constructor
      · intro h
        exact ⟨htot2, by exact_mod_cast h⟩
      · intro hand
        exact_mod_cast hand.2
    · rename_i htot
      refine iff_of_false (by norm_num) ?_
      intro hand
      exact htot hand.1
  unfold execute_transformation_pipeline_gate
  by_cases hs : (sync_project_source_sheets sheetSyncOk).success = true
  · rw [if_pos hs]
    exact iff_of_true rfl (hmain.mp hs)
  · rw [if_neg hs]
    refine iff_of_false (by intro h; cases h) ?_
    intro hand
    exact hs (hmain.mpr hand)

/-! ## Project-wide execution order (`execute_all_transformations`,
main.py)

The endpoint gathers the project's transformation steps and joins into
one list and sorts it by `created_at` (Python's stable `list.sort`; the
preliminary per-kind orderings only affect ties).  It then executes the
operations in that order; there is no dependency analysis: nothing
consults an operation's upstream references before running it, and no
operation is skipped or marked failed because an upstream failed or has
not run.  Qualitative-data operations are not part of the combined
list at all. -/

/-- One operation of the combined `operations` list: its kind string,
id, creation timestamp, and its upstream `{kind, id}` references (from
`upstream_tables` for steps, the left/right table references for
joins). -/
structure PipelineOperation where
  kind : String
  opId : Nat
  createdAt : Nat
  upstream : List (String × Nat)
deriving DecidableEq, Repr

/-- Stable insertion into a list sorted by `created_at`. -/
def insertByCreatedAt (x : PipelineOperation) :
    List PipelineOperation → List PipelineOperation
  | [] => [x]
  | y :: ys =>
    if x.createdAt ≤ y.createdAt then x :: y :: ys
    else y :: insertByCreatedAt x ys

/-- Python's `operations.sort(key=lambda x: x['created_at'])`. -/
def sortByCreatedAt (ops : List PipelineOperation) :
    List PipelineOperation :=
  ops.foldr insertByCreatedAt []

/-- The execution order of `execute_all_transformations`: the combined
step and join list sorted by creation time — upstream references play
no role. -/
def execute_all_transformations_order
    (steps joins : List PipelineOperation) : List PipelineOperation :=
  sortByCreatedAt (steps ++ joins)

/-- A transformation step created at time 5 whose upstream reference is
the join below. -/
def stepBeforeItsUpstream : PipelineOperation :=
  { kind := "transformation", opId := 3, createdAt := 5,
    upstream := [("join", 1)] }

/-- A join created at time 10, upstream of the step above. -/
def laterCreatedJoin : PipelineOperation :=
  { kind := "join", opId := 1, createdAt := 10, upstream := [] }

/-- C1 evidence: `execute_all_transformations` runs the step created at
time 5 before the join it references, which runs only afterwards — the
creation-time order is not a topological order of the upstream-reference
graph, and the step is executed (not skipped or marked failed) although
its upstream has not run. -/
theorem creation_time_order_violates_dependencies :
    execute_all_transformations_order [stepBeforeItsUpstream]
        [laterCreatedJoin] =
      [stepBeforeItsUpstream, laterCreatedJoin] ∧
    stepBeforeItsUpstream.upstream =
      [("join", laterCreatedJoin.opId)] := by
  constructor <;> rfl
